import Mathlib

/-
Verification of the `UniversityDashboard` component
(src/client/src/university/UniversityDashboard.jsx).

The component is embedded shallowly: React state becomes a record
`DashboardState`, each event handler / async fetcher becomes a pure
function from the request's outcome and the current state to the new
state together with the list of observable side effects (toast calls,
HTTP requests, console logging, localStorage mutation, navigation) it
performs, in program order.
-/

namespace UniversityDashboard

/-- The `universityLogo` sub-object of a profile response
(`university.universityLogo?.secure_url` in the render). -/
structure UniversityLogo where
  secure_url : String
  deriving DecidableEq, Repr

/-- A university profile record as returned by `GET /university/profile`
and stored verbatim in the `university` state (line 32). -/
structure University where
  universityName : String
  universityEmail : String
  universityLogo : Option UniversityLogo
  deriving DecidableEq, Repr

/-- An exam-statistics record as returned by `GET /university/exam/stats`
and stored verbatim in the `examStats` state (line 49).  Each field is
`Option Nat`: `none` models a field absent from the JSON response
(JavaScript `undefined`). -/
structure ExamStats where
  totalExams : Option Nat
  studentsAssigned : Option Nat
  studentsAttended : Option Nat
  deriving DecidableEq, Repr

/-- The component's React state: the four `useState` slices declared on
lines 13-20 of the source. -/
structure DashboardState where
  university : Option University
  examStats : ExamStats
  loading : Bool
  sidebarOpen : Bool
  deriving DecidableEq, Repr

/-- The initial state on mount: the `useState` initial values
(lines 13-20): `university = null`, `examStats` the zero-struct,
`loading = false`, `sidebarOpen = false`. -/
def initialState : DashboardState :=
  { university := none
    examStats := { totalExams := some 0, studentsAssigned := some 0, studentsAttended := some 0 }
    loading := false
    sidebarOpen := false }

/-- One observable side effect of the component, in program order. -/
inductive Event where
  | toastLoading (msg : String)
  | toastDismiss
  | toastSuccess (msg : String)
  | toastError (msg : String)
  | httpGet (path : String)
  | consoleError (msg : String)
  | removeItem (key : String)
  | navigate (path : String)
  deriving DecidableEq, Repr

/-- `fetchUniversityData` (lines 27-42): shows a loading toast, issues
`GET /university/profile`; on success stores the response body in
`university`, dismisses all toasts and shows a success toast; on failure
logs the error, dismisses all toasts and shows an error toast; in the
`finally` block sets `loading` to `false` on both paths. -/
def fetchUniversityData (result : Except String University) (s : DashboardState) :
    DashboardState × List Event :=
  match result with
  | .ok data =>
      ({ s with university := some data, loading := false },
       [Event.toastLoading "Fetching university data...",
        Event.httpGet "/university/profile",
        Event.toastDismiss,
        Event.toastSuccess "University data loaded!"])
  | .error e =>
      ({ s with loading := false },
       [Event.toastLoading "Fetching university data...",
        Event.httpGet "/university/profile",
        Event.consoleError ("Error fetching university data: " ++ e),
        Event.toastDismiss,
        Event.toastError "Failed to load university data"])

/-- `fetchExamStats` (lines 44-59): same shape as `fetchUniversityData`,
targeting `GET /university/exam/stats` and the `examStats` slice. -/
def fetchExamStats (result : Except String ExamStats) (s : DashboardState) :
    DashboardState × List Event :=
  match result with
  | .ok data =>
      ({ s with examStats := data, loading := false },
       [Event.toastLoading "Fetching exam statistics...",
        Event.httpGet "/university/exam/stats",
        Event.toastDismiss,
        Event.toastSuccess "Exam stats loaded!"])
  | .error e =>
      ({ s with loading := false },
       [Event.toastLoading "Fetching exam statistics...",
        Event.httpGet "/university/exam/stats",
        Event.consoleError ("Error fetching exam stats: " ++ e),
        Event.toastDismiss,
        Event.toastError "Failed to load exam stats"])

/-- `handleLogout` (lines 61-65): removes the `token` localStorage entry,
shows a success toast, then navigates to `/login`; the state is untouched. -/
def handleLogout : List Event :=
  [Event.removeItem "token",
   Event.toastSuccess "Logged out successfully!",
   Event.navigate "/login"]

/-- The sidebar toggle button (line 150): `setSidebarOpen(!sidebarOpen)`;
it performs no side effect besides the state update. -/
def toggleSidebar (s : DashboardState) : DashboardState × List Event :=
  ({ s with sidebarOpen := !s.sidebarOpen }, [])

/-- One dataset of the bar chart (lines 77-85). -/
structure ChartDataset where
  label : String
  data : List (Option Nat)
  backgroundColor : List String
  borderColor : List String
  borderWidth : Nat
  deriving DecidableEq, Repr

/-- The `chartData` object (lines 75-86). -/
structure ChartData where
  labels : List String
  datasets : List ChartDataset
  deriving DecidableEq, Repr

/-- `chartData` (lines 75-86), derived from the current `examStats`. -/
def chartData (examStats : ExamStats) : ChartData :=
  { labels := ["Total Exams", "Students Assigned", "Students Attended"]
    datasets :=
      [{ label := "Exam Statistics"
         data := [examStats.totalExams, examStats.studentsAssigned, examStats.studentsAttended]
         backgroundColor := ["#10B981", "#FBBF24", "#3B82F6"]
         borderColor := ["#059669", "#F59E0B", "#2563EB"]
         borderWidth := 1 }] }

/-- A `display`/`text` pair used by chart titles (lines 92 and 97). -/
structure TitleSpec where
  display : Bool
  text : String
  deriving DecidableEq, Repr

/-- The `chartOptions` object (lines 88-100). -/
structure ChartOptionsSpec where
  responsive : Bool
  legendPlacement : String
  title : TitleSpec
  yBeginAtZero : Bool
  yTitle : TitleSpec
  deriving DecidableEq, Repr

/-- `chartOptions` (lines 88-100): constant, independent of the state. -/
def chartOptions : ChartOptionsSpec :=
  { responsive := true
    legendPlacement := "top"
    title := { display := true, text := "Exam Statistics Overview" }
    yBeginAtZero := true
    yTitle := { display := true, text := "Count" } }

/-- The kinds of toast the component can show. -/
inductive ToastKind where
  | loadingToast
  | successToast
  | errorToast
  deriving DecidableEq, Repr

/-- Effect of one event on the list of currently visible toasts:
`toast.dismiss()` (no argument) dismisses all active toasts; the three
emitters append one toast; other effects leave toasts unchanged. -/
def toastStep (active : List (ToastKind × String)) (e : Event) : List (ToastKind × String) :=
  match e with
  | Event.toastLoading m => active ++ [(ToastKind.loadingToast, m)]
  | Event.toastDismiss => []
  | Event.toastSuccess m => active ++ [(ToastKind.successToast, m)]
  | Event.toastError m => active ++ [(ToastKind.errorToast, m)]
  | _ => active

/-- Toasts visible after a trace of events runs, starting from none. -/
def activeToasts (evs : List Event) : List (ToastKind × String) :=
  evs.foldl toastStep []

/-- Whether an event is a call into the toast library. -/
def isToastEvent : Event → Bool
  | Event.toastLoading _ => true
  | Event.toastDismiss => true
  | Event.toastSuccess _ => true
  | Event.toastError _ => true
  | _ => false

/-- The subsequence of toast-library calls in a trace. -/
def toastTrace (evs : List Event) : List Event :=
  evs.filter isToastEvent

/-- Number of `toast.dismiss()` calls in a trace. -/
def countDismiss : List Event → Nat
  | [] => 0
  | Event.toastDismiss :: rest => countDismiss rest + 1
  | _ :: rest => countDismiss rest

/-- Number of `toast.error` calls in a trace. -/
def countError : List Event → Nat
  | [] => 0
  | Event.toastError _ :: rest => countError rest + 1
  | _ :: rest => countError rest

/-- Number of HTTP requests in a trace. -/
def countHttp : List Event → Nat
  | [] => 0
  | Event.httpGet _ :: rest => countHttp rest + 1
  | _ :: rest => countHttp rest

/-- The profile card (lines 168-192) shows the placeholder
`Loading university data...` exactly when `university` is absent. -/
def profileShowsPlaceholder (s : DashboardState) : Bool :=
  s.university.isNone

/-- The logo `src` (line 172): `universityLogo?.secure_url` with a
placeholder-image fallback. -/
def logoSrc (u : University) : String :=
  match u.universityLogo with
  | some l => l.secure_url
  | none => "https://via.placeholder.com/64"

/-- What the profile card renders when `university` is present:
logo source, name and email (lines 170-179); `none` when the
placeholder message is shown instead. -/
def renderedProfileCard (s : DashboardState) : Option (String × String × String) :=
  s.university.map fun u => (logoSrc u, u.universityName, u.universityEmail)

/-- The two fetchers launched by the mount effect (lines 22-25). -/
inductive FetchId where
  | profileFetch
  | statsFetch
  deriving DecidableEq, Repr

/-- The writes each fetcher performs on the shared `loading` flag:
`start` is the `setLoading(true)` at the top of the `try` block
(lines 29 and 46), after which the request is in flight; `finish` is
the `setLoading(false)` in the `finally` block (lines 40 and 57),
which also marks the fetcher's completion. -/
inductive FetchStep where
  | start (i : FetchId)
  | finish (i : FetchId)
  deriving DecidableEq, Repr

/-- The writes fetcher `i` performs on `loading`, in program order. -/
def fetchLoadingWrites (i : FetchId) : List FetchStep :=
  [FetchStep.start i, FetchStep.finish i]

/-- Value of the shared `loading` flag after a sequence of writes,
starting from its initial value `false` (line 19): `start` writes
`true`, `finish` writes `false`, the last write wins. -/
def loadingAfter (steps : List FetchStep) : Bool :=
  steps.foldl (fun _ st => match st with | FetchStep.start _ => true | FetchStep.finish _ => false)
    false

/-- Fetcher `i` has begun (its request was issued) within `steps`. -/
def started (i : FetchId) (steps : List FetchStep) : Prop :=
  FetchStep.start i ∈ steps

/-- Fetcher `i` has completed (its `finally` ran) within `steps`. -/
def finished (i : FetchId) (steps : List FetchStep) : Prop :=
  FetchStep.finish i ∈ steps

/-- Fetcher `i`'s request is still in flight at the end of `steps`. -/
def inFlight (i : FetchId) (steps : List FetchStep) : Prop :=
  started i steps ∧ ¬ finished i steps

/-- `Interleaving xs ys zs`: `zs` is an order-preserving merge of `xs`
and `ys`, the possible global orders of two concurrently running tasks
on the single-threaded event loop. -/
inductive Interleaving : List FetchStep → List FetchStep → List FetchStep → Prop where
  | nil : Interleaving [] [] []
  | left : ∀ x xs ys zs, Interleaving xs ys zs → Interleaving (x :: xs) ys (x :: zs)
  | right : ∀ y xs ys zs, Interleaving xs ys zs → Interleaving xs (y :: ys) (y :: zs)

/-- A possible global order of the loading-flag writes of the two
fetchers launched on mount. -/
def MountTrace (t : List FetchStep) : Prop :=
  Interleaving (fetchLoadingWrites FetchId.profileFetch)
    (fetchLoadingWrites FetchId.statsFetch) t

/-- Number of `toast.success` calls in a trace. -/
def countSuccess : List Event → Nat
  | [] => 0
  | Event.toastSuccess _ :: rest => countSuccess rest + 1
  | _ :: rest => countSuccess rest

theorem with_loading_false_eq (s : DashboardState) (h : s.loading = false) :
    ({ s with loading := false } : DashboardState) = s := by
  cases s
  simp_all

theorem loadingAfter_append_single (xs : List FetchStep) (x : FetchStep) :
    loadingAfter (xs ++ [x]) =
      match x with
      | FetchStep.start _ => true
      | FetchStep.finish _ => false := by
  simp [loadingAfter, List.foldl_append]

theorem loadingAfter_true_of_no_finish (p : List FetchStep) (j : FetchId)
    (hstart : started j p) (hnof : ∀ k, ¬ finished k p) : loadingAfter p = true := by
  induction p using List.reverseRecOn with
  | nil => cases hstart
  | append_singleton xs x _ =>
      cases x with
      | start i => simp [loadingAfter, List.foldl_append]
      | finish i => exact absurd (by simp [finished]) (hnof i)

end UniversityDashboard

namespace UniversityDashboard

/-- C1: a successful profile fetch replaces `university` with the response
body exactly (no transformation), after which the placeholder loading
message is gone and the profile fields (logo, name, email) render. -/
theorem profile_success_replaces_university (u : University) (s : DashboardState) :
    (fetchUniversityData (Except.ok u) s).1.university = some u ∧
    profileShowsPlaceholder (fetchUniversityData (Except.ok u) s).1 = false ∧
    renderedProfileCard (fetchUniversityData (Except.ok u) s).1 =
      some (logoSrc u, u.universityName, u.universityEmail) :=
  ⟨rfl, rfl, rfl⟩

/-- C2: for every `examStats`, the chart has exactly the three fixed
categories in order, whose values are the three fields in order, with
fixed per-category colors, a fixed title and a fixed y-axis label; the
derivation is a pure function of `examStats`. -/
theorem chart_derivation_fixed (st : ExamStats) :
    (chartData st).labels = ["Total Exams", "Students Assigned", "Students Attended"] ∧
    (chartData st).datasets.map ChartDataset.data =
      [[st.totalExams, st.studentsAssigned, st.studentsAttended]] ∧
    (chartData st).datasets.map ChartDataset.backgroundColor =
      [["#10B981", "#FBBF24", "#3B82F6"]] ∧
    (chartData st).datasets.map ChartDataset.borderColor =
      [["#059669", "#F59E0B", "#2563EB"]] ∧
    (chartData st).labels.length = 3 ∧
    chartOptions.title.text = "Exam Statistics Overview" ∧
    chartOptions.yTitle.text = "Count" ∧
    chartOptions.responsive = true :=
  ⟨rfl, rfl, rfl, rfl, rfl, rfl, rfl, rfl⟩

/-- C3: a failed fetch (profile or stats) leaves its state slice
unchanged, emits exactly one error toast, leaves no loading toast
visible, and surfaces no structured error: the final state is
`{ s with loading := false }`, so when the fetch started from a
non-loading state it is identical to the state of a fetch that never
ran. -/
theorem fetch_failure_atomic (e : String) (s : DashboardState) :
    (fetchUniversityData (Except.error e) s).1 = { s with loading := false } ∧
    (fetchUniversityData (Except.error e) s).1.university = s.university ∧
    countError (fetchUniversityData (Except.error e) s).2 = 1 ∧
    activeToasts (fetchUniversityData (Except.error e) s).2 =
      [(ToastKind.errorToast, "Failed to load university data")] ∧
    (s.loading = false → (fetchUniversityData (Except.error e) s).1 = s) ∧
    (fetchExamStats (Except.error e) s).1 = { s with loading := false } ∧
    (fetchExamStats (Except.error e) s).1.examStats = s.examStats ∧
    countError (fetchExamStats (Except.error e) s).2 = 1 ∧
    activeToasts (fetchExamStats (Except.error e) s).2 =
      [(ToastKind.errorToast, "Failed to load exam stats")] ∧
    (s.loading = false → (fetchExamStats (Except.error e) s).1 = s) :=
  ⟨rfl, rfl, rfl, rfl, fun h => with_loading_false_eq s h,
   rfl, rfl, rfl, rfl, fun h => with_loading_false_eq s h⟩

/-- Witness for C3 at a concrete failing request from the initial state. -/
theorem fetch_failure_atomic_witness :
    (fetchUniversityData (Except.error "network error") initialState).1 = initialState ∧
    (fetchExamStats (Except.error "network error") initialState).1 = initialState :=
  ⟨(fetch_failure_atomic "network error" initialState).2.2.2.2.1 rfl,
   (fetch_failure_atomic "network error" initialState).2.2.2.2.2.2.2.2.2 rfl⟩

/-- C4: on both the success and the failure path of either fetcher, the
trace starts with the loading toast immediately followed by the HTTP
request, the loading toast is dismissed exactly once, and the final
state has `loading = false`. -/
theorem fetch_cleanup_guaranteed (rp : Except String University)
    (rs : Except String ExamStats) (s : DashboardState) :
    (fetchUniversityData rp s).1.loading = false ∧
    (fetchUniversityData rp s).2.take 2 =
      [Event.toastLoading "Fetching university data...", Event.httpGet "/university/profile"] ∧
    countDismiss (fetchUniversityData rp s).2 = 1 ∧
    (fetchExamStats rs s).1.loading = false ∧
    (fetchExamStats rs s).2.take 2 =
      [Event.toastLoading "Fetching exam statistics...", Event.httpGet "/university/exam/stats"] ∧
    countDismiss (fetchExamStats rs s).2 = 1 := by
  cases rp <;> cases rs <;> exact ⟨rfl, rfl, rfl, rfl, rfl, rfl⟩

/-- C5: the toast-library calls of every fetch invocation are, in order:
one loading toast, one dismissal of all active toasts, then exactly one
of a success or an error toast (success on the success path, error on
the failure path) — never both, never neither. -/
theorem fetch_toast_order (u : University) (st : ExamStats) (e : String) (s : DashboardState) :
    toastTrace (fetchUniversityData (Except.ok u) s).2 =
      [Event.toastLoading "Fetching university data...", Event.toastDismiss,
       Event.toastSuccess "University data loaded!"] ∧
    toastTrace (fetchUniversityData (Except.error e) s).2 =
      [Event.toastLoading "Fetching university data...", Event.toastDismiss,
       Event.toastError "Failed to load university data"] ∧
    toastTrace (fetchExamStats (Except.ok st) s).2 =
      [Event.toastLoading "Fetching exam statistics...", Event.toastDismiss,
       Event.toastSuccess "Exam stats loaded!"] ∧
    toastTrace (fetchExamStats (Except.error e) s).2 =
      [Event.toastLoading "Fetching exam statistics...", Event.toastDismiss,
       Event.toastError "Failed to load exam stats"] :=
  ⟨rfl, rfl, rfl, rfl⟩

/-- C6: logout removes the `token` localStorage entry, emits exactly one
success toast, then navigates to `/login`, in that order. -/
theorem logout_sequence :
    handleLogout =
      [Event.removeItem "token", Event.toastSuccess "Logged out successfully!",
       Event.navigate "/login"] ∧
    countSuccess handleLogout = 1 :=
  ⟨rfl, rfl⟩

/-- C7: a successful stats fetch replaces `examStats` wholesale by the
response body: the resulting chart values are exactly the response's
fields, and any field the response omits is absent in the new state,
not retained from the previous value. -/
theorem stats_success_wholesale (r : ExamStats) (s : DashboardState) :
    (fetchExamStats (Except.ok r) s).1.examStats = r ∧
    (chartData (fetchExamStats (Except.ok r) s).1.examStats).datasets.map ChartDataset.data =
      [[r.totalExams, r.studentsAssigned, r.studentsAttended]] ∧
    (r.totalExams = none → (fetchExamStats (Except.ok r) s).1.examStats.totalExams = none) ∧
    (r.studentsAssigned = none →
      (fetchExamStats (Except.ok r) s).1.examStats.studentsAssigned = none) ∧
    (r.studentsAttended = none →
      (fetchExamStats (Except.ok r) s).1.examStats.studentsAttended = none) :=
  ⟨rfl, rfl, fun h => h, fun h => h, fun h => h⟩

/-- Witness for C7: a response omitting `totalExams` overwrites a prior
value of 5 with an absent value rather than retaining it. -/
theorem stats_success_wholesale_witness :
    (fetchExamStats
        (Except.ok { totalExams := none, studentsAssigned := some 40, studentsAttended := some 38 })
        { initialState with
          examStats :=
            { totalExams := some 5, studentsAssigned := some 40,
              studentsAttended := some 38 } }).1.examStats.totalExams = none :=
  (stats_success_wholesale
    { totalExams := none, studentsAssigned := some 40, studentsAttended := some 38 }
    { initialState with
      examStats :=
        { totalExams := some 5, studentsAssigned := some 40,
          studentsAttended := some 38 } }).2.2.1 rfl

/-- C8: the sidebar toggle is an involution on the state, emits no
events (in particular no HTTP request), and leaves every other state
slice unchanged. -/
theorem sidebar_toggle_involution (s : DashboardState) :
    (toggleSidebar (toggleSidebar s).1).1 = s ∧
    (toggleSidebar s).2 = [] ∧
    countHttp (toggleSidebar s).2 = 0 ∧
    (toggleSidebar s).1.university = s.university ∧
    (toggleSidebar s).1.examStats = s.examStats ∧
    (toggleSidebar s).1.loading = s.loading := by
  refine ⟨?_, rfl, rfl, rfl, rfl, rfl⟩
  cases s
  simp [toggleSidebar]

/-- C9: in every interleaving of the two mount-time fetchers' writes to
the shared `loading` flag, whenever one fetcher finishes while the other
is still pending, the flag reads `false` although a request is still in
flight; before any fetcher finishes, the flag reads `true` whenever a
request is in flight. -/
theorem loading_flag_race (t p q : List FetchStep) (i j : FetchId)
    (_ht : MountTrace t) (_hsplit : t = p ++ FetchStep.finish i :: q)
    (hij : i ≠ j) (hstart : started j p) (hfin : ¬ finished j p) :
    loadingAfter (p ++ [FetchStep.finish i]) = false ∧
    inFlight j (p ++ [FetchStep.finish i]) ∧
    ((∀ k, ¬ finished k p) → loadingAfter p = true) := by
  refine ⟨?_, ⟨?_, ?_⟩, fun hnof => loadingAfter_true_of_no_finish p j hstart hnof⟩
  · simp [loadingAfter_append_single]
  · exact List.mem_append.mpr (Or.inl hstart)
  · intro hmem
    rcases List.mem_append.mp hmem with h | h
    · exact hfin h
    · simp only [List.mem_singleton] at h
      cases h
      exact hij rfl

/-- Witness for C9: the interleaving realized by the actual mount (both
requests issued synchronously before either resolves), with the profile
fetch completing first; `loading` is then `false` while the stats
request is still in flight. -/
theorem loading_flag_race_witness :
    loadingAfter
      [FetchStep.start FetchId.profileFetch, FetchStep.start FetchId.statsFetch,
       FetchStep.finish FetchId.profileFetch] = false ∧
    inFlight FetchId.statsFetch
      [FetchStep.start FetchId.profileFetch, FetchStep.start FetchId.statsFetch,
       FetchStep.finish FetchId.profileFetch] ∧
    ((∀ k, ¬ finished k
        [FetchStep.start FetchId.profileFetch, FetchStep.start FetchId.statsFetch]) →
      loadingAfter
        [FetchStep.start FetchId.profileFetch, FetchStep.start FetchId.statsFetch] = true) :=
  loading_flag_race
    [FetchStep.start FetchId.profileFetch, FetchStep.start FetchId.statsFetch,
     FetchStep.finish FetchId.profileFetch, FetchStep.finish FetchId.statsFetch]
    [FetchStep.start FetchId.profileFetch, FetchStep.start FetchId.statsFetch]
    [FetchStep.finish FetchId.statsFetch]
    FetchId.profileFetch FetchId.statsFetch
    (Interleaving.left _ _ _ _ (Interleaving.right _ _ _ _
      (Interleaving.left _ _ _ _ (Interleaving.right _ _ _ _ Interleaving.nil))))
    rfl (by decide) (by simp [started]) (by simp [finished])

/-- C10: before either fetch runs, `loading` is `false`, `university` is
absent, `sidebarOpen` is `false`, `examStats` is the zero-struct, the
chart values are [0, 0, 0] and the profile card shows the placeholder. -/
theorem initial_state_values :
    initialState.loading = false ∧
    initialState.university = none ∧
    initialState.sidebarOpen = false ∧
    initialState.examStats =
      { totalExams := some 0, studentsAssigned := some 0, studentsAttended := some 0 } ∧
    (chartData initialState.examStats).datasets.map ChartDataset.data =
      [[some 0, some 0, some 0]] ∧
    profileShowsPlaceholder initialState = true :=
  ⟨rfl, rfl, rfl, rfl, rfl, rfl⟩

end UniversityDashboard
